import Mathlib

/-!
Shallow embedding of the sundial timedate service (sundiald), covering the
pieces the claims are about:

- `check_auth` from src/sundiald/src/dbus.rs (the authorization gate);
- `get_hwclock` / `set_hwclock` from src/sundiald/src/util.rs (the RTC bridge),
  with the OS primitives `rtc_open` / `rtc_read` / `rtc_write` / `rtc_close`
  and libc's `timegm` taken as parameters (they are syscalls / libc, not
  repository code);
- the property getters `local_rtc`, `timezone`, `list_timezones` and
  `time_usec` from src/sundiald/src/dbus.rs, with file contents and the
  `clock_gettime` result taken as parameters;
- the mutating methods `set_ntp` and `set_local_rtc`, instrumented with an
  event trace so that which side effects run (authorization round-trips,
  clock synchronizations) is visible in the model.

File contents are modelled as `Option (List String)`: `none` is an absent
file (the only open failure modelled), `some lines` the successfully read
lines. Machine integers (`i64` / `c_long`) are modelled as `Int` with
explicit two's-complement wrapping where the Rust arithmetic can overflow,
and Rust's `try_into::<u64>()` as a partial conversion that fails exactly
on negative values.
-/

/-- The zbus `fdo::Error` variants this service constructs. -/
inductive FdoError
  | invalidArgs (msg : String)
  | notSupported (msg : String)
  | failed (msg : String)
  | authFailed (msg : String)
deriving DecidableEq

/-- The `nix::errno::Errno` values relevant to this service. -/
inductive Errno
  | ENOSYS
  | EINVAL
  | Eio
  | EBADF
  | EBUSY
  | ENOENT
  | EOVERFLOW
deriving DecidableEq

/-- `Errno::desc()`, used when formatting `TimeUSec` failure messages. -/
def Errno.desc : Errno → String
  | .ENOSYS => "Function not implemented"
  | .EINVAL => "Invalid argument"
  | .Eio => "Input-output error"
  | .EBADF => "Bad file descriptor"
  | .EBUSY => "Device or resource busy"
  | .ENOENT => "No such file or directory"
  | .EOVERFLOW => "Value too large for defined data type"

/-- A raw file descriptor (`RawFd`). -/
abbrev Fd := Nat

/-- `struct RtcTime` from src/sundiald/src/util.rs (linux/rtc.h layout). -/
structure RtcTime where
  sec : Int
  min : Int
  hour : Int
  mday : Int
  mon : Int
  year : Int
  wday : Int
  yday : Int
  isdst : Int
deriving DecidableEq

/-- `struct timespec` as returned by `clock_gettime`. -/
structure Timespec where
  tv_sec : Int
  tv_nsec : Int
deriving DecidableEq

/-- `SEC_TO_USEC` from src/sundiald/src/util.rs. -/
def SEC_TO_USEC : Int := 1000000

/-- `NSEC_TO_USEC` from src/sundiald/src/dbus.rs. -/
def NSEC_TO_USEC : Int := 1000

/-- Two's-complement wrap of an integer into the `i64` range. -/
def i64wrap (x : Int) : Int := (x + 2 ^ 63) % 2 ^ 64 - 2 ^ 63

/-- `i64` multiplication (wrapping, as in a Rust release build). -/
def i64mul (a b : Int) : Int := i64wrap (a * b)

/-- `i64` addition (wrapping, as in a Rust release build). -/
def i64add (a b : Int) : Int := i64wrap (a + b)

/-- Rust's `i64::try_into::<u64>()`: fails exactly on negative values. -/
def i64_to_u64 (x : Int) : Option Nat := if 0 ≤ x then some x.toNat else none

/-- `read_lines` from src/sundiald/src/util.rs: opening the file fails when it
is absent (`none`); otherwise it yields the file's lines. The io error is kept
as its display string, which the callers interpolate into their messages. -/
def read_lines (file : Option (List String)) : Except String (List String) :=
  match file with
  | some lines => Except.ok lines
  | none => Except.error "No such file or directory (os error 2)"

/-- Rust's `str::starts_with('#')` with a char pattern: the string's first
character is `#`. -/
def starts_with_hash (s : String) : Bool :=
  match s.data with
  | [] => false
  | c :: _ => c == '#'

/-- Splitter for `split_whitespace`, structurally recursive over the
characters; `acc` holds the current field's characters in reverse. -/
def split_ws_aux : List Char → List Char → List String
  | [], acc => if acc.isEmpty then [] else [String.mk acc.reverse]
  | c :: cs, acc =>
    if c.isWhitespace then
      if acc.isEmpty then split_ws_aux cs []
      else String.mk acc.reverse :: split_ws_aux cs []
    else split_ws_aux cs (c :: acc)

/-- Rust's `str::split_whitespace`: split on whitespace, dropping empty
pieces. (Modelled with `Char.isWhitespace`; identical on ASCII input.) -/
def split_whitespace (s : String) : List String :=
  split_ws_aux s.data []

/-- `TimeDate::local_rtc` (the `LocalRTC` property) from
src/sundiald/src/dbus.rs: on a readable `/etc/adjtime` (whose lines are the
argument), the result is whether the third line is exactly `LOCAL`; a failed
open is surfaced as an `fdo::Error::Failed`. -/
def local_rtc (adjtime : Option (List String)) : Except FdoError Bool :=
  match read_lines adjtime with
  | Except.ok lines =>
    Except.ok
      (match lines.get? 2 with
       | some ln => ln == "LOCAL"
       | none => false)
  | Except.error e => Except.error (.failed ("Couldn't get RTC status: " ++ e))

/-- `TimeDate::list_timezones` from src/sundiald/src/dbus.rs: for each
non-comment line of `/usr/share/zoneinfo/zone.tab` (whose lines are the
argument), take the third whitespace-delimited field when it exists. -/
def list_timezones (zone_tab : Option (List String)) : Except FdoError (List String) :=
  match read_lines zone_tab with
  | Except.ok lines =>
    Except.ok
      ((lines.filter (fun ln => !starts_with_hash ln)).filterMap
        (fun ln => (split_whitespace ln).get? 2))
  | Except.error e => Except.error (.failed ("Couldn't get timezone list: " ++ e))

/-- `Path::strip_prefix` specialised to the zoneinfo root, on the canonical
path of `/etc/localtime`. -/
def strip_zoneinfo (p : String) : Option String :=
  if p.startsWith "/usr/share/zoneinfo/" then some (p.drop "/usr/share/zoneinfo/".length)
  else none

/-- `TimeDate::timezone` (the `Timezone` property) from
src/sundiald/src/dbus.rs. The argument is the result of canonicalizing
`/etc/localtime`: `none` when the link is absent (canonicalize failed),
`some p` its resolved target. -/
def timezone (canonical : Option String) : Except FdoError String :=
  match canonical with
  | some p =>
    match strip_zoneinfo p with
    | some tz => Except.ok tz
    | none => Except.error (.failed "Unable to determine local timezone")
  | none => Except.ok "UTC"

/-- The numeric conversion inside `TimeDate::time_usec`:
`((ts.tv_sec() * SEC_TO_USEC) + (ts.tv_nsec() / NSEC_TO_USEC)).try_into().unwrap_or_default()`.
Rust integer division truncates toward zero (`Int.tdiv`); `unwrap_or_default`
turns a failed conversion into `0`. -/
def time_usec_conv (ts : Timespec) : Nat :=
  (i64_to_u64 (i64add (i64mul ts.tv_sec SEC_TO_USEC) (Int.tdiv ts.tv_nsec NSEC_TO_USEC))).getD 0

/-- `TimeDate::time_usec` (the `TimeUSec` property) from
src/sundiald/src/dbus.rs. The argument is the `clock_gettime(CLOCK_REALTIME)`
result. -/
def time_usec (clock : Except Errno Timespec) : Except FdoError Nat :=
  match clock with
  | Except.ok ts => Except.ok (time_usec_conv ts)
  | Except.error e =>
    match e with
    | Errno.ENOSYS => Except.error (.notSupported "clock_gettime not supported on this system")
    | Errno.EINVAL => Except.error (.failed "Unable to get current time")
    | _ => Except.error (.failed ("Unable to get current time: " ++ e.desc))

/-- The numeric conversion inside `get_hwclock`:
`(libc::timegm(&mut tm.into()) * SEC_TO_USEC).try_into().unwrap_or_default()`,
applied to the seconds value `t` that `timegm` returned. -/
def hwclock_usec (t : Int) : Nat := (i64_to_u64 (i64mul t SEC_TO_USEC)).getD 0

/-- `get_hwclock` from src/sundiald/src/util.rs. The OS primitives are
parameters: `rtc_open` is the result of opening `/dev/rtc`, `rtc_read` the
RTC_RD_TIME ioctl, `rtc_close` the close, and `timegm` libc's broken-down
UTC time to seconds conversion. The body mirrors the source: compute `ret`
from the read, then `if let Err(e) = rtc_close(fd) { return Err(e); }`. -/
def get_hwclock (rtc_open : Except Errno Fd) (rtc_read : Fd → Except Errno RtcTime)
    (rtc_close : Fd → Except Errno Unit) (timegm : RtcTime → Int) : Except Errno Nat :=
  match rtc_open with
  | Except.ok fd =>
    let ret : Except Errno Nat :=
      match rtc_read fd with
      | Except.ok tm => Except.ok (hwclock_usec (timegm tm))
      | Except.error e => Except.error e
    match rtc_close fd with
    | Except.error e => Except.error e
    | Except.ok _ => ret
  | Except.error e => Except.error e

/-- `set_hwclock` from src/sundiald/src/util.rs, for a fixed time argument:
`rtc_write` is the RTC_SET_TIME ioctl with that time already applied. -/
def set_hwclock (rtc_open : Except Errno Fd) (rtc_write : Fd → Except Errno Unit)
    (rtc_close : Fd → Except Errno Unit) : Except Errno Unit :=
  match rtc_open with
  | Except.ok fd =>
    let ret : Except Errno Unit :=
      match rtc_write fd with
      | Except.ok _ => Except.ok ()
      | Except.error e => Except.error e
    match rtc_close fd with
    | Except.error e => Except.error e
    | Except.ok _ => ret
  | Except.error e => Except.error e

/-- The fields of the polkit `CheckAuthorization` reply that `check_auth`
inspects. -/
structure CheckAuthorizationResult where
  is_authorized : Bool
  is_challenge : Bool
deriving DecidableEq

/-- `TimeDate::check_auth` from src/sundiald/src/dbus.rs. `auth_res` is the
policy authority's reply (an error when the round-trip itself failed, which
the `?` operator propagates); `has_cap` is the result of querying whether the
process's effective capability set holds CAP_SYS_TIME (the `caps` crate can
itself fail, with an error kept as a string). -/
def check_auth (auth_res : Except FdoError CheckAuthorizationResult)
    (has_cap : Except String Bool) : Except FdoError Unit :=
  match auth_res with
  | Except.error e => Except.error e
  | Except.ok r =>
    if r.is_authorized then Except.ok ()
    else if r.is_challenge then
      Except.error (.authFailed "Interactive authentication required")
    else
      match has_cap with
      | Except.ok true => Except.ok ()
      | Except.ok false => Except.error (.authFailed "Does not have CAP_SYS_TIME")
      | Except.error _ => Except.error (.authFailed "Does not have CAP_SYS_TIME")

/-- The error the spec calls AuthenticationRequired: the concrete
`fdo::Error::AuthFailed` value `check_auth` produces on a challenge reply. -/
def authenticationRequired : FdoError := .authFailed "Interactive authentication required"

/-- The error the spec calls AuthenticationDenied: the concrete
`fdo::Error::AuthFailed` value `check_auth` produces on a plain denial
without the capability. -/
def authenticationDenied : FdoError := .authFailed "Does not have CAP_SYS_TIME"

/-- The authorization environment a mutating call runs in: the policy
authority's reply and the capability query result (they live in `&self` /
the process state in the source). -/
structure AuthEnv where
  auth_res : Except FdoError CheckAuthorizationResult
  has_cap : Except String Bool

/-- Observable side effects of a mutating method, recorded as a trace:
an authorization round-trip through `check_auth`, persisting a new RTC mode,
or one of the two directional clock synchronizations the spec describes.
The source of `set_local_rtc` only ever performs the authorization
round-trip; the synchronization steps are TODO comments in its body. -/
inductive TdEvent
  | authCheck (action : String) (interactive : Bool)
  | persistMode (localRtc : Bool)
  | syncRtcFromSys
  | syncSysFromRtc
deriving DecidableEq

/-- Result of a mutating method: success, a D-Bus error, or reaching the
`todo!()` macro (a Rust panic). -/
inductive Outcome (α : Type)
  | ok (a : α)
  | error (e : FdoError)
  | panicked
deriving DecidableEq

/-- `TimeDate::set_ntp` (`SetNTP`) from src/sundiald/src/dbus.rs: the body is
a single `Err(fdo::Error::NotSupported(..))` return, so no event is traced
and the environment and arguments are never inspected. -/
def set_ntp (env : AuthEnv) (use_ntp interactive : Bool) :
    Except FdoError Unit × List TdEvent :=
  (Except.error (.notSupported "NTP is not supported"), [])

/-- `TimeDate::set_local_rtc` (`SetLocalRTC`) from src/sundiald/src/dbus.rs:
read the current mode via `local_rtc` (propagating its error), return
immediately when the requested mode matches and `fix_system` is false, else
run `check_auth`; a requested mode different from the current one reaches
`todo!()`. The remainder of the source body is comments only, so no further
event is traced before `Ok(())`. -/
def set_local_rtc (adjtime : Option (List String)) (env : AuthEnv)
    (local_rtc_arg fix_system interactive : Bool) : Outcome Unit × List TdEvent :=
  match local_rtc adjtime with
  | Except.error e => (Outcome.error e, [])
  | Except.ok curr =>
    if local_rtc_arg == curr && !fix_system then (Outcome.ok (), [])
    else
      match check_auth env.auth_res env.has_cap with
      | Except.error e =>
        (Outcome.error e, [TdEvent.authCheck "org.freedesktop.timedate1.set-local-rtc" interactive])
      | Except.ok _ =>
        if local_rtc_arg != curr then
          (Outcome.panicked, [TdEvent.authCheck "org.freedesktop.timedate1.set-local-rtc" interactive])
        else
          (Outcome.ok (), [TdEvent.authCheck "org.freedesktop.timedate1.set-local-rtc" interactive])

/-- Claim C1: at the authorization gate, a fully-authorized policy reply makes
`check_auth` succeed; a requires-challenge reply makes it fail with the
AuthenticationRequired error; on a plain denial it succeeds exactly when the
capability query reports CAP_SYS_TIME held, and fails with the
AuthenticationDenied error otherwise. -/
theorem C1_check_auth_gate (r : CheckAuthorizationResult) (cap : Except String Bool) :
    (r.is_authorized = true → check_auth (Except.ok r) cap = Except.ok ())
    ∧ (r.is_authorized = false → r.is_challenge = true →
        check_auth (Except.ok r) cap = Except.error authenticationRequired)
    ∧ (r.is_authorized = false → r.is_challenge = false → cap = Except.ok true →
        check_auth (Except.ok r) cap = Except.ok ())
    ∧ (r.is_authorized = false → r.is_challenge = false → cap ≠ Except.ok true →
        check_auth (Except.ok r) cap = Except.error authenticationDenied) := by
  obtain ⟨a, c⟩ := r
  refine ⟨?_, ?_, ?_, ?_⟩
  · intro h1
    simp only at h1
    subst h1
    simp [check_auth]
  · intro h1 h2
    simp only at h1 h2
    subst h1; subst h2
    simp [check_auth, authenticationRequired]
  · intro h1 h2 h3
    simp only at h1 h2
    subst h1; subst h2; subst h3
    simp [check_auth]
  · intro h1 h2 h3
    simp only at h1 h2
    subst h1; subst h2
    rcases cap with e | b
    · simp [check_auth, authenticationDenied]
    · cases b
      · simp [check_auth, authenticationDenied]
      · exact absurd rfl h3

/-- Witness for C1: each of the four branches at a concrete input. -/
theorem C1_check_auth_gate_witness :
    check_auth (Except.ok ⟨true, false⟩) (Except.ok false) = Except.ok ()
    ∧ check_auth (Except.ok ⟨false, true⟩) (Except.ok false) = Except.error authenticationRequired
    ∧ check_auth (Except.ok ⟨false, false⟩) (Except.ok true) = Except.ok ()
    ∧ check_auth (Except.ok ⟨false, false⟩) (Except.ok false) = Except.error authenticationDenied :=
  ⟨(C1_check_auth_gate ⟨true, false⟩ (Except.ok false)).1 rfl,
   (C1_check_auth_gate ⟨false, true⟩ (Except.ok false)).2.1 rfl rfl,
   (C1_check_auth_gate ⟨false, false⟩ (Except.ok true)).2.2.1 rfl rfl rfl,
   (C1_check_auth_gate ⟨false, false⟩ (Except.ok false)).2.2.2 rfl rfl (by simp)⟩

/-- Claim C10: when the policy authority denies (neither authorized nor
challenge) and the capability query itself fails, `check_auth` fails with the
same AuthenticationDenied error it uses for a reported-absent capability, and
a failed query is never treated as authorization. -/
theorem C10_cap_query_failure (r : CheckAuthorizationResult) (s : String)
    (h1 : r.is_authorized = false) (h2 : r.is_challenge = false) :
    check_auth (Except.ok r) (Except.error s) = Except.error authenticationDenied
    ∧ check_auth (Except.ok r) (Except.error s) = check_auth (Except.ok r) (Except.ok false)
    ∧ check_auth (Except.ok r) (Except.error s) ≠ Except.ok () := by
  obtain ⟨a, c⟩ := r
  simp only at h1 h2
  subst h1; subst h2
  refine ⟨by simp [check_auth, authenticationDenied], by simp [check_auth], by simp [check_auth]⟩

/-- Witness for C10: plain denial with a failed capability query. -/
theorem C10_cap_query_failure_witness :
    check_auth (Except.ok ⟨false, false⟩) (Except.error "capability query failed")
      = Except.error authenticationDenied :=
  (C10_cap_query_failure ⟨false, false⟩ "capability query failed" rfl rfl).1

/-- Claim C6: `SetNTP` fails with the Unsupported error for every input
combination and every authorization environment, traces no authorization
round-trip and no state change. -/
theorem C6_set_ntp_unsupported (env : AuthEnv) (use_ntp interactive : Bool) :
    set_ntp env use_ntp interactive
      = (Except.error (FdoError.notSupported "NTP is not supported"), []) := rfl

/-- Claim C8: when the local-time link is absent (canonicalize failed), the
`Timezone` property returns the string UTC, not an error. -/
theorem C8_timezone_absent_utc : timezone none = Except.ok "UTC" := rfl

/-- Claim C9: on the no-op path of `SetLocalRTC` (requested mode equal to the
persisted mode read by `local_rtc`, `fix_system` false), the method returns
success with an empty event trace — no authorization round-trip — and the
result is identical for any two authorization environments. -/
theorem C9_noop_skips_authorization (adjtime : Option (List String))
    (mode interactive : Bool) (env1 env2 : AuthEnv)
    (h : local_rtc adjtime = Except.ok mode) :
    set_local_rtc adjtime env1 mode false interactive = (Outcome.ok (), [])
    ∧ set_local_rtc adjtime env1 mode false interactive
      = set_local_rtc adjtime env2 mode false interactive := by
  have h1 : set_local_rtc adjtime env1 mode false interactive = (Outcome.ok (), []) := by
    simp [set_local_rtc, h]
  have h2 : set_local_rtc adjtime env2 mode false interactive = (Outcome.ok (), []) := by
    simp [set_local_rtc, h]
  exact ⟨h1, h1.trans h2.symm⟩

/-- Witness for C9: a present two-line adjtime file (mode UTC, i.e. false)
and a same-mode request succeed even when both the policy round-trip and the
capability query would fail. -/
theorem C9_noop_skips_authorization_witness :
    set_local_rtc (some ["0.0 0 0.0", "0"])
      ⟨Except.error (FdoError.failed "policy authority unreachable"), Except.error "caps failed"⟩
      false false true = (Outcome.ok (), []) :=
  (C9_noop_skips_authorization (some ["0.0 0 0.0", "0"]) false true
    ⟨Except.error (FdoError.failed "policy authority unreachable"), Except.error "caps failed"⟩
    ⟨Except.ok ⟨true, false⟩, Except.ok true⟩ rfl).1

/-- Claim C7, evaluated at the failing input: requested mode equal to the
persisted mode (UTC), `fix_system = true`, a fully-authorized policy reply.
The call succeeds after the authorization round-trip but the trace contains
neither directional synchronization event: the resynchronization the claim
requires does not happen (the source body holds only TODO comments there). -/
theorem C7_same_mode_fix_system_no_resync :
    set_local_rtc (some ["0.0 0 0.0", "0", "UTC"]) ⟨Except.ok ⟨true, false⟩, Except.ok true⟩
      false true false
      = (Outcome.ok (), [TdEvent.authCheck "org.freedesktop.timedate1.set-local-rtc" false])
    ∧ TdEvent.syncSysFromRtc ∉ (set_local_rtc (some ["0.0 0 0.0", "0", "UTC"])
        ⟨Except.ok ⟨true, false⟩, Except.ok true⟩ false true false).2
    ∧ TdEvent.syncRtcFromSys ∉ (set_local_rtc (some ["0.0 0 0.0", "0", "UTC"])
        ⟨Except.ok ⟨true, false⟩, Except.ok true⟩ false true false).2 := by
  refine ⟨rfl, by decide, by decide⟩

/-- Claim C4 counterexample: with the adjustment-configuration file absent,
`LocalRTC` returns an `fdo::Error::Failed`, not `false` as the claim states. -/
theorem C4_counterexample :
    local_rtc none
      = Except.error
          (FdoError.failed "Couldn't get RTC status: No such file or directory (os error 2)")
    ∧ local_rtc none ≠ Except.ok false := by
  exact ⟨rfl, by simp [local_rtc, read_lines]⟩

/-- Claim C4 amended: when the file exists and is readable, `LocalRTC`
returns true iff it has at least 3 lines with the third exactly LOCAL, and
false — not an error — for any other third line or fewer than 3 lines; but
when the file is absent, it fails with an error instead of returning false. -/
theorem C4_local_rtc_amended (lines : List String) (s : String) :
    (lines.get? 2 = some "LOCAL" → local_rtc (some lines) = Except.ok true)
    ∧ (lines.get? 2 = some s → s ≠ "LOCAL" → local_rtc (some lines) = Except.ok false)
    ∧ (lines.get? 2 = none → local_rtc (some lines) = Except.ok false)
    ∧ local_rtc none
      = Except.error
          (FdoError.failed "Couldn't get RTC status: No such file or directory (os error 2)") := by
  refine ⟨?_, ?_, ?_, rfl⟩
  · intro h
    rw [List.get?_eq_getElem?] at h
    simp [local_rtc, read_lines, h]
  · intro h hs
    rw [List.get?_eq_getElem?] at h
    simp [local_rtc, read_lines, h, beq_eq_false_iff_ne, hs]
  · intro h
    rw [List.get?_eq_getElem?] at h
    simp [local_rtc, read_lines, h]

/-- Witness for C4 amended: a LOCAL third line, a UTC third line, and a
one-line file, at concrete file contents. -/
theorem C4_local_rtc_amended_witness :
    local_rtc (some ["0.0 0 0.0", "0", "LOCAL"]) = Except.ok true
    ∧ local_rtc (some ["0.0 0 0.0", "0", "UTC"]) = Except.ok false
    ∧ local_rtc (some ["0.0 0 0.0"]) = Except.ok false :=
  ⟨(C4_local_rtc_amended ["0.0 0 0.0", "0", "LOCAL"] "x").1 rfl,
   (C4_local_rtc_amended ["0.0 0 0.0", "0", "UTC"] "UTC").2.1 rfl (by decide),
   (C4_local_rtc_amended ["0.0 0 0.0"] "x").2.2.1 rfl⟩

/-- Claim C5 counterexample: a zone-database file whose single non-comment
line has only two whitespace-delimited fields yields zero entries, not one
entry per non-comment line as the claim states. -/
theorem C5_counterexample :
    (["AD +4230+00131"].filter (fun ln => !starts_with_hash ln)).length = 1
    ∧ list_timezones (some ["AD +4230+00131"]) = Except.ok [] := by
  exact ⟨rfl, rfl⟩

/-- `List.filterMap` is mapping the extraction over the sublist where it
succeeds (any default `d` works, since it is only read where `f` is `some`). -/
theorem filterMap_as_map_of_filter {α β : Type} (f : α → Option β) (d : β) :
    ∀ l : List α,
      l.filterMap f = (l.filter (fun x => (f x).isSome)).map (fun x => (f x).getD d) := by
  intro l
  induction l with
  | nil => rfl
  | cons a t ih =>
    cases h : f a with
    | none => simp [List.filterMap_cons, List.filter_cons, h, ih]
    | some b => simp [List.filterMap_cons, List.filter_cons, h, ih]

/-- Claim C5 amended: `ListTimezones` returns, in file order, one entry for
each non-comment line that has at least three whitespace-delimited fields
(`((split_whitespace ln).get? 2).isSome`), namely that line's third field;
non-comment lines with fewer fields are silently skipped; and it fails
exactly when the index file is absent. -/
theorem C5_list_timezones_amended (lines : List String) :
    list_timezones (some lines)
      = Except.ok
          (((lines.filter (fun ln => !starts_with_hash ln)).filter
              (fun ln => ((split_whitespace ln).get? 2).isSome)).map
            (fun ln => ((split_whitespace ln).get? 2).getD ""))
    ∧ list_timezones none
      = Except.error
          (FdoError.failed "Couldn't get timezone list: No such file or directory (os error 2)") := by
  constructor
  · exact congrArg Except.ok
      (filterMap_as_map_of_filter (fun ln => (split_whitespace ln).get? 2) ""
        (lines.filter (fun ln => !starts_with_hash ln)))
  · rfl

/-- Claim C3 counterexample: with the read failing with Eio and the close
failing with EBADF, `get_hwclock` returns the close error EBADF — the close
failure replaces the earlier read error instead of preserving it. -/
theorem C3_counterexample :
    get_hwclock (Except.ok 0) (fun _ => Except.error Errno.Eio)
        (fun _ => Except.error Errno.EBADF) (fun _ => 0)
      = Except.error Errno.EBADF
    ∧ get_hwclock (Except.ok 0) (fun _ => Except.error Errno.Eio)
        (fun _ => Except.error Errno.EBADF) (fun _ => 0)
      ≠ Except.error Errno.Eio := by
  have h1 : get_hwclock (Except.ok 0) (fun _ => Except.error Errno.Eio)
      (fun _ => Except.error Errno.EBADF) (fun _ => 0)
      = Except.error Errno.EBADF := rfl
  refine ⟨h1, ?_⟩
  rw [h1]
  simp

/-- Claim C3 amended: after a successful open, a close failure is returned
unconditionally, replacing whatever the read or write produced (error or
success alike); the read/write result is returned exactly when close
succeeds. This holds for both `get_hwclock` and `set_hwclock`. -/
theorem C3_close_replaces_result (fd : Fd) (rtc_read : Fd → Except Errno RtcTime)
    (rtc_write : Fd → Except Errno Unit) (rtc_close : Fd → Except Errno Unit)
    (timegm : RtcTime → Int) (e : Errno) :
    (rtc_close fd = Except.error e →
        get_hwclock (Except.ok fd) rtc_read rtc_close timegm = Except.error e
        ∧ set_hwclock (Except.ok fd) rtc_write rtc_close = Except.error e)
    ∧ (rtc_close fd = Except.ok () →
        get_hwclock (Except.ok fd) rtc_read rtc_close timegm
          = (match rtc_read fd with
             | Except.ok tm => Except.ok (hwclock_usec (timegm tm))
             | Except.error e2 => Except.error e2)
        ∧ set_hwclock (Except.ok fd) rtc_write rtc_close = rtc_write fd) := by
  constructor
  · intro h
    exact ⟨by simp [get_hwclock, h], by simp [set_hwclock, h]⟩
  · intro h
    constructor
    · simp [get_hwclock, h]
    · simp only [set_hwclock, h]
      cases hw : rtc_write fd with
      | ok a => rfl
      | error e2 => rfl

/-- Witness for C3 amended: a concrete failing close after a successful read,
and a concrete fully-successful write sequence. -/
theorem C3_close_replaces_result_witness :
    get_hwclock (Except.ok 1) (fun _ => Except.ok ⟨0, 0, 0, 1, 0, 70, 4, 0, 0⟩)
        (fun _ => Except.error Errno.EBUSY) (fun _ => 0)
      = Except.error Errno.EBUSY
    ∧ set_hwclock (Except.ok 1) (fun _ => Except.ok ()) (fun _ => Except.ok ())
      = Except.ok () :=
  ⟨((C3_close_replaces_result 1 (fun _ => Except.ok ⟨0, 0, 0, 1, 0, 70, 4, 0, 0⟩)
      (fun _ => Except.ok ()) (fun _ => Except.error Errno.EBUSY) (fun _ => 0) Errno.EBUSY).1
      rfl).1,
   ((C3_close_replaces_result 1 (fun _ => Except.ok ⟨0, 0, 0, 1, 0, 70, 4, 0, 0⟩)
      (fun _ => Except.ok ()) (fun _ => Except.ok ()) (fun _ => 0) Errno.EBUSY).2 rfl).2⟩

/-- Claim C2 counterexample: a negative kernel wall-clock reading (five
seconds before the epoch) makes `TimeUSec` succeed with 0 instead of failing,
and an RTC broken-down time one second before the epoch (`timegm` returns -1)
makes `get_hwclock` succeed with 0 instead of failing: the failed conversion
is silently replaced by the default value. -/
theorem C2_counterexample :
    time_usec (Except.ok ⟨-5, 0⟩) = Except.ok 0
    ∧ get_hwclock (Except.ok 0) (fun _ => Except.ok ⟨59, 59, 23, 31, 11, 69, 3, 364, 0⟩)
        (fun _ => Except.ok ()) (fun _ => -1)
      = Except.ok 0 := by
  exact ⟨rfl, rfl⟩

/-- Claim C2 amended: on a successful clock read the conversion never fails;
whenever the wrapped 64-bit microsecond value is negative (from a negative
time or from wrapping overflow), `unwrap_or_default` silently substitutes 0
and the call reports success, in both `time_usec` and the `get_hwclock`
conversion. -/
theorem C2_conversion_substitutes_zero (ts : Timespec) (t : Int) :
    (∃ n, time_usec (Except.ok ts) = Except.ok n)
    ∧ (i64add (i64mul ts.tv_sec SEC_TO_USEC) (Int.tdiv ts.tv_nsec NSEC_TO_USEC) < 0 →
        time_usec (Except.ok ts) = Except.ok 0)
    ∧ (i64mul t SEC_TO_USEC < 0 → hwclock_usec t = 0) := by
  refine ⟨⟨time_usec_conv ts, rfl⟩, ?_, ?_⟩
  · intro h
    have hn : i64_to_u64
        (i64add (i64mul ts.tv_sec SEC_TO_USEC) (Int.tdiv ts.tv_nsec NSEC_TO_USEC)) = none := by
      simp [i64_to_u64, not_le.mpr h]
    simp [time_usec, time_usec_conv, hn]
  · intro h
    have hn : i64_to_u64 (i64mul t SEC_TO_USEC) = none := by
      simp [i64_to_u64, not_le.mpr h]
    simp [hwclock_usec, hn]

/-- Witness for C2 amended: concrete negative readings. -/
theorem C2_conversion_substitutes_zero_witness :
    time_usec (Except.ok ⟨-7, 999⟩) = Except.ok 0 ∧ hwclock_usec (-3) = 0 :=
  ⟨(C2_conversion_substitutes_zero ⟨-7, 999⟩ (-3)).2.1 (by decide),
   (C2_conversion_substitutes_zero ⟨-7, 999⟩ (-3)).2.2 (by decide)⟩
